import Mathlib

/-!
Verification of `screenshot.cc` (derat/screenshot): a shallow embedding of
the region-selection state machine (`RegionSelector::SelectRegion`) and of
the capture pipeline in `main`, together with proofs of the specified
properties.

Conventions of the embedding:
* X11 coordinates (`int` in the source) are `Int`; `unsigned int` values
  that the source computes from non-negative differences are `Nat`.
* The blocking event loop is modelled as a function consuming a finite
  list of events; running out of events while the loop has not finished
  models "blocks forever" and is returned as `none`.
* Calls into the X server that the claims observe (grabs, ungrabs, window
  moves, maps, sleeps) are recorded in a trace of `XAction`s; the border
  windows' geometry is additionally tracked in the state, since the claims
  speak about where the windows are.
-/

namespace Screenshot

/-- Total width of the (black) region border, in pixels (`kBorder`). -/
def kBorder : Int := 2

/-- Width of the inner (white) part of the region border (`kInteriorBorder`). -/
def kInteriorBorder : Int := 1

/-- Maximum number of times the keyboard grab is attempted
(`kMaxKeyboardGrabAttempts`). -/
def kMaxKeyboardGrabAttempts : Nat := 10

/-- Delay before retrying the keyboard grab, in ms (`kKeyboardGrabDelayMs`). -/
def kKeyboardGrabDelayMs : Nat := 100

/-- Opacity hint for the visual feedback window
(`kVisualFeedbackWindowOpacity = 0.25`), kept as a rational to avoid
floating point. -/
def kVisualFeedbackWindowOpacity : ℚ := 1 / 4

/-- Display time of the visual feedback window in ms
(`kVisualFeedbackWindowDisplayTimeMs`). -/
def kVisualFeedbackWindowDisplayTimeMs : Nat := 100

/-- Identifies one of the four border windows owned by `RegionSelector`
(`left_win_`, `right_win_`, `top_win_`, `bottom_win_`). -/
inductive BorderWin where
  | left
  | right
  | top
  | bottom
deriving DecidableEq, Repr

/-- A window geometry as passed to `XMoveResizeWindow`:
position and size. -/
structure XRect where
  x : Int
  y : Int
  width : Int
  height : Int
deriving DecidableEq, Repr

/-- Geometry of a freshly created border window and the target of
`MoveWindowsOffscreen`: position `(-1, -1)`, size `1x1`. -/
def offscreenRect : XRect := ⟨-1, -1, 1, 1⟩

/-- A pointer position, as read from `x_root` / `y_root` of an X event. -/
structure Point where
  x : Int
  y : Int
deriving DecidableEq, Repr

/-- The X events the selection loop dispatches on. `keyPress` carries
whether the keycode equals the Escape keycode (the only test the source
performs on it); `other` stands for any event type without a `case`. -/
inductive XEvent where
  | buttonPress (p : Point)
  | buttonRelease (p : Point)
  | expose (w : BorderWin)
  | keyPress (isEscapeKeycode : Bool)
  | motionNotify (p : Point)
  | other
deriving DecidableEq, Repr

/-- The X calls that `SelectRegion` makes and that the claims observe. -/
inductive XAction where
  | grabPointerCall (ok : Bool)
  | ungrabPointer
  | grabKeyboardCall (ok : Bool)
  | ungrabKeyboard
  | usleepCall (usec : Nat)
  | moveResizeWindow (w : BorderWin) (r : XRect)
  | mapWindow (w : BorderWin)
  | unmapWindow (w : BorderWin)
  | fillRectangles (w : BorderWin)
deriving DecidableEq, Repr

/-- Is this X call an acquisition or a release of an input grab? Used to
reason about the grab-lease discipline of `SelectRegion`. -/
def grabRelated : XAction → Bool
  | .grabPointerCall _ => true
  | .ungrabPointer => true
  | .grabKeyboardCall _ => true
  | .ungrabKeyboard => true
  | _ => false

/-- The mutable state of the selection loop in `SelectRegion`: the local
variables `done`, `dragging`, `aborted`, `start_x`, `start_y`, `end_x`,
`end_y`, plus the current geometry of the four border windows (the
observable effect of `ConfigureWindows` / `MoveWindowsOffscreen`). -/
structure SelState where
  done : Bool
  dragging : Bool
  aborted : Bool
  start_x : Int
  start_y : Int
  end_x : Int
  end_y : Int
  left_win : XRect
  right_win : XRect
  top_win : XRect
  bottom_win : XRect
deriving DecidableEq, Repr

/-- The state on entry to the selection loop: all flags false, all
coordinates 0, the border windows offscreen (`MoveWindowsOffscreen` is
called just before mapping them). -/
def initSelState : SelState :=
  { done := false, dragging := false, aborted := false
    start_x := 0, start_y := 0, end_x := 0, end_y := 0
    left_win := offscreenRect, right_win := offscreenRect
    top_win := offscreenRect, bottom_win := offscreenRect }

/-- `RegionSelector::ConfigureWindows`: frame the rectangle spanned by
`(start_x, start_y)` and `(drag_x, drag_y)` with the four border windows. -/
def configureWindows (s : SelState) (start_x start_y drag_x drag_y : Int) :
    SelState × List XAction :=
  let left := min drag_x start_x
  let right := max drag_x start_x
  let top := min drag_y start_y
  let bottom := max drag_y start_y
  let lw : XRect := ⟨left - kBorder, top, kBorder, max (bottom - top) 1⟩
  let rw : XRect := ⟨right, top, kBorder, max (bottom - top) 1⟩
  let tw : XRect := ⟨left - kBorder, top - kBorder, right - left + 2 * kBorder, kBorder⟩
  let bw : XRect := ⟨left - kBorder, bottom, right - left + 2 * kBorder, kBorder⟩
  ({ s with left_win := lw, right_win := rw, top_win := tw, bottom_win := bw },
   [.moveResizeWindow .left lw, .moveResizeWindow .right rw,
    .moveResizeWindow .top tw, .moveResizeWindow .bottom bw])

/-- `RegionSelector::MoveWindowsOffscreen`: move all four border windows
to `(-1, -1)` with size `1x1`. -/
def moveWindowsOffscreen (s : SelState) : SelState × List XAction :=
  ({ s with left_win := offscreenRect, right_win := offscreenRect
            top_win := offscreenRect, bottom_win := offscreenRect },
   [.moveResizeWindow .left offscreenRect, .moveResizeWindow .right offscreenRect,
    .moveResizeWindow .top offscreenRect, .moveResizeWindow .bottom offscreenRect])

/-- One iteration of the `switch` in `SelectRegion`'s event loop: dispatch
a single event against the current state, yielding the new state and the
X calls made while handling it. -/
def processEvent (s : SelState) (e : XEvent) : SelState × List XAction :=
  match e with
  | .buttonPress p =>
      ({ s with start_x := p.x, start_y := p.y, dragging := true }, [])
  | .buttonRelease p =>
      if s.dragging then
        ({ s with end_x := p.x, end_y := p.y, done := true }, [])
      else (s, [])
  | .expose w => (s, [.fillRectangles w])
  | .keyPress isEscapeKeycode =>
      if isEscapeKeycode then
        if s.dragging then
          moveWindowsOffscreen { s with dragging := false }
        else ({ s with aborted := true }, [])
      else (s, [])
  | .motionNotify p =>
      if s.dragging then
        let s2 := { s with end_x := p.x, end_y := p.y }
        configureWindows s2 s2.start_x s2.start_y s2.end_x s2.end_y
      else (s, [])
  | .other => (s, [])

/-- The `while (!done && !aborted)` loop of `SelectRegion`, consuming the
supplied events in order. Returns `none` when the events run out with the
loop still waiting (the real program would block in `XNextEvent`). -/
def eventLoop (s : SelState) : List XEvent → Option SelState × List XAction
  | [] => (if s.done || s.aborted then some s else none, [])
  | e :: rest =>
      if s.done || s.aborted then (some s, [])
      else
        let (s2, t) := processEvent s e
        let (r, t2) := eventLoop s2 rest
        (r, t ++ t2)

/-- The body of the keyboard-grab retry loop in `SelectRegion`: call
`GrabKeyboard` (whose result for the attempt after `num_failed_grabs`
failures is `grab num_failed_grabs`); on failure increment the counter,
give up (and ungrab the pointer) once it reaches
`kMaxKeyboardGrabAttempts`, otherwise sleep `kKeyboardGrabDelayMs` ms and
retry. Returns the number of failed attempts on success, `none` on
exhaustion. The structural recursion is on `fuel`, the number of attempts
the loop may still make; the loop makes at most
`kMaxKeyboardGrabAttempts` attempts in total, `grabKeyboardRetry` below
instantiates `fuel` accordingly, and the `fuel = 0` branch is unreachable
from that entry point. -/
def grabKeyboardRetryAux (grab : Nat → Bool) :
    Nat → Nat → Option Nat × List XAction
  | 0, _ => (none, [])
  | fuel + 1, num_failed_grabs =>
    if grab num_failed_grabs then
      (some num_failed_grabs, [.grabKeyboardCall true])
    else
      if kMaxKeyboardGrabAttempts ≤ num_failed_grabs + 1 then
        (none, [.grabKeyboardCall false, .ungrabPointer])
      else
        let (r, t) := grabKeyboardRetryAux grab fuel (num_failed_grabs + 1)
        (r, .grabKeyboardCall false :: .usleepCall (kKeyboardGrabDelayMs * 1000) :: t)

/-- The keyboard-grab retry loop of `SelectRegion`, entered with
`num_failed_grabs = 0`. -/
def grabKeyboardRetry (grab : Nat → Bool) : Option Nat × List XAction :=
  grabKeyboardRetryAux grab kMaxKeyboardGrabAttempts 0

/-- In the source, the final statement of `SelectRegion` is
`return (width > 0 && height > 0);` where `width` and `height` are the
`unsigned int*` out-parameters, not the values stored through them: the
comparison is between the addresses of the caller's live stack variables
and a null pointer, so each conjunct is true regardless of the computed
dimensions. This definition embeds that pointer truthiness. -/
def outParamPointerIsPositive : Bool := true

/-- The possible results of one `SelectRegion` call: pointer grab failed,
keyboard grab retries exhausted, selection aborted (escape while idle), or
a completed drag with the values stored through the out-parameters and the
returned boolean. -/
inductive SelectOutcome where
  | grabPointerFailed
  | keyboardGrabExhausted
  | aborted
  | completed (x y : Int) (width height : Nat) (ret : Bool)
deriving DecidableEq, Repr

/-- The boolean that `SelectRegion` returns for a given outcome. -/
def SelectOutcome.ret : SelectOutcome → Bool
  | .completed _ _ _ _ r => r
  | _ => false

/-- The state in which the event loop is entered: `MoveWindowsOffscreen`
is called on the initial state just before the border windows are mapped. -/
def loopEntryState : SelState := (moveWindowsOffscreen initSelState).1

/-- The result `SelectRegion` computes from the final loop state after the
loop exits: `aborted` yields `false` and stores nothing; otherwise the
normalized rectangle (`min` of the corners, difference of `max` and `min`
per axis) is stored through the out-parameters and the pointer-truthiness
boolean (see `outParamPointerIsPositive`) is returned. -/
def outcomeOfFinalState (s : SelState) : SelectOutcome :=
  if s.aborted then SelectOutcome.aborted
  else
    SelectOutcome.completed
      (min s.start_x s.end_x) (min s.start_y s.end_y)
      (max s.start_x s.end_x - min s.start_x s.end_x).toNat
      (max s.start_y s.end_y - min s.start_y s.end_y).toNat
      (outParamPointerIsPositive && outParamPointerIsPositive)

/-- The X calls made between the keyboard grab and the event loop: move
the border windows offscreen and map all four. -/
def selectionSetupTrace : List XAction :=
  (moveWindowsOffscreen initSelState).2 ++
    [XAction.mapWindow .left, XAction.mapWindow .right,
     XAction.mapWindow .top, XAction.mapWindow .bottom]

/-- The X calls made after the event loop exits: ungrab keyboard and
pointer, unmap all four border windows. -/
def selectionTeardownTrace : List XAction :=
  [XAction.ungrabKeyboard, XAction.ungrabPointer,
   XAction.unmapWindow .left, XAction.unmapWindow .right,
   XAction.unmapWindow .top, XAction.unmapWindow .bottom]

/-- The phase of `SelectRegion` after both grabs succeed: move the border
windows offscreen, map them, run the event loop, then ungrab keyboard and
pointer, unmap the windows, and compute the result from the final state. -/
def runSelectionLoop (events : List XEvent) :
    Option SelectOutcome × List XAction :=
  match eventLoop loopEntryState events with
  | (none, loopTrace) => (none, selectionSetupTrace ++ loopTrace)
  | (some s, loopTrace) =>
      (some (outcomeOfFinalState s),
       selectionSetupTrace ++ loopTrace ++ selectionTeardownTrace)

/-- `RegionSelector::SelectRegion`, parameterized by the outcome of
`GrabPointer`, the outcomes of the successive `GrabKeyboard` attempts, and
the stream of events the X server delivers. Returns the outcome (`none`
when the loop would block forever) and the trace of X calls. -/
def selectRegion (pointerGrabOk : Bool) (keyboardGrab : Nat → Bool)
    (events : List XEvent) : Option SelectOutcome × List XAction :=
  if !pointerGrabOk then
    (some .grabPointerFailed, [.grabPointerCall false])
  else
    match grabKeyboardRetry keyboardGrab with
    | (none, kbTrace) =>
        (some .keyboardGrabExhausted, .grabPointerCall true :: kbTrace)
    | (some _, kbTrace) =>
        let (r, t) := runSelectionLoop events
        (r, .grabPointerCall true :: kbTrace ++ t)

/-- Is `c` one of the hexadecimal digit characters accepted by the
stream's `num_get` in base 16? -/
def isHexDigitChar (c : Char) : Bool :=
  c.isDigit ||
    ((decide ('a' ≤ c) && decide (c ≤ 'f')) ||
     (decide ('A' ≤ c) && decide (c ≤ 'F')))

/-- Numeric value of a hexadecimal digit character. -/
def hexDigitVal (c : Char) : Nat :=
  if c.isDigit then c.toNat - Char.toNat '0'
  else if 'a' ≤ c ∧ c ≤ 'f' then c.toNat - Char.toNat 'a' + 10
  else c.toNat - Char.toNat 'A' + 10

/-- Accumulate a run of hexadecimal digit characters into a number. -/
def hexVal (ds : List Char) : Nat :=
  List.foldl (fun acc c => 16 * acc + hexDigitVal c) 0 ds

/-- Models `istringstream(FLAGS_window) >> hex >> win` for an
`unsigned long` (64-bit): skip leading whitespace, accept an optional
leading `+` or `-` sign (`num_get` accepts a sign even for unsigned
extraction), accept an optional `0x`/`0X` prefix when a hexadecimal digit
follows it, then consume the longest leading run of hexadecimal digits.
Extraction fails (the `.fail()` the source checks) when no digit is
consumed, or when the accumulated magnitude is out of `unsigned long`
range (out-of-range conversions set `failbit`). A `-` sign alone does not
fail: as in `strtoull`, the in-range magnitude is negated, wrapping
modulo `2 ^ 64`. Trailing non-hex characters are left unread and do not
make extraction fail. -/
def parseHexWindow (s : String) : Option Nat :=
  let cs := s.data.dropWhile (fun c => c.isWhitespace)
  let signed :=
    match cs with
    | '-' :: rest => (true, rest)
    | '+' :: rest => (false, rest)
    | _ => (false, cs)
  let neg := signed.1
  let cs1 := signed.2
  let cs2 :=
    match cs1 with
    | '0' :: x :: rest =>
        if (x = 'x' || x = 'X') && isHexDigitChar (rest.headD ' ') then rest
        else cs1
    | _ => cs1
  let ds := cs2.takeWhile isHexDigitChar
  if ds.isEmpty then none
  else
    let v := hexVal ds
    if 2 ^ 64 ≤ v then none
    else some (if neg then (2 ^ 64 - v) % 2 ^ 64 else v)

/-- The window whose contents are captured: the default root window, or a
window given by its parsed hexadecimal X ID. -/
inductive WinTarget where
  | root
  | handle (id : Nat)
deriving DecidableEq, Repr

/-- The two Cairo pixel formats the source can pass to
`cairo_image_surface_create_for_data`: `CAIRO_FORMAT_RGB24` (no alpha)
and `CAIRO_FORMAT_ARGB32` (with alpha). -/
inductive CairoFormat where
  | rgb24
  | argb32
deriving DecidableEq, Repr

/-- The steps of `main` that the claims observe, in program order. -/
inductive MainAction where
  | openDisplay
  | parseWindowFlag (value : String)
  | getGeometry (target : WinTarget)
  | selectRegionCall
  | getImage (target : WinTarget)
  | createFeedbackWindow
  | mapFeedbackWindow
  | usleepCall (usec : Nat)
  | destroyFeedbackWindow
  | createCairoSurface (fmt : CairoFormat)
  | writePng (fmt : CairoFormat) (filename : String)
deriving DecidableEq, Repr

/-- The steps of a successful capture, from the pixel read to the PNG
write, in the order `main` performs them. -/
def captureTail (target : WinTarget) (fmt : CairoFormat) (filename : String) :
    List MainAction :=
  [.getImage target, .createFeedbackWindow, .mapFeedbackWindow,
   .usleepCall (kVisualFeedbackWindowDisplayTimeMs * 1000),
   .destroyFeedbackWindow, .createCairoSurface fmt, .writePng fmt filename]

/-- How a run of `main` ends: `usage` (wrong argument count, usage text
printed, `return 1`), `fatal` (a `CHECK` failed and the process aborts
with a non-zero status), `blocked` (the selection loop never receives a
terminating event), or `exit code` (an ordinary `return code`). -/
inductive MainResult where
  | usage
  | fatal
  | blocked
  | exit (code : Nat)
deriving DecidableEq, Repr

/-- Does this result write the output file? Only a clean `return 0` does:
`cairo_surface_write_to_png` is the sole write, and a failed write is a
fatal `CHECK`. -/
def MainResult.wroteFile : MainResult → Bool
  | .exit 0 => true
  | _ => false

/-- The environment a run of `main` executes against: the command line,
and the replies of the X server and of Cairo at each step the program can
observe. -/
structure Env where
  argcIsTwo : Bool
  window_flag : String
  region_flag : Bool
  displayOpens : Bool
  geometryOk : Bool
  pointerGrabOk : Bool
  keyboardGrab : Nat → Bool
  events : List XEvent
  imageOk : Bool
  imageDepth : Nat
  surfaceOk : Bool
  pngWriteOk : Bool
  filename : String

/-- The tail of `main` from `XGetImage` on, reached with capture target
`target`: read the image (`CHECK(image)`), check the depth
(`CHECK(image->depth == 24 || image->depth == 32)`), create, map,
display for `kVisualFeedbackWindowDisplayTimeMs` ms and destroy the
visual feedback window, then create the Cairo surface with
`CAIRO_FORMAT_RGB24` for depth 24 and `CAIRO_FORMAT_ARGB32` otherwise
(the depth is 32 at that point) and write the PNG. -/
def mainCapturePhase (env : Env) (target : WinTarget) :
    MainResult × List MainAction :=
  if !env.imageOk then (.fatal, [.getImage target])
  else
    if !(env.imageDepth = 24 || env.imageDepth = 32) then
      (.fatal, [.getImage target])
    else
      let fmt : CairoFormat := if env.imageDepth = 24 then .rgb24 else .argb32
      let feedback : List MainAction :=
        [.createFeedbackWindow, .mapFeedbackWindow,
         .usleepCall (kVisualFeedbackWindowDisplayTimeMs * 1000),
         .destroyFeedbackWindow]
      if !env.surfaceOk then
        (.fatal, .getImage target :: feedback ++ [.createCairoSurface fmt])
      else
        if !env.pngWriteOk then
          (.fatal, .getImage target :: feedback ++
            [.createCairoSurface fmt, .writePng fmt env.filename])
        else
          (.exit 0, .getImage target :: feedback ++
            [.createCairoSurface fmt, .writePng fmt env.filename])

/-- The phase of `main` from `XGetGeometry` on, reached with capture
target `target` and the given prefix of already-performed actions:
query the geometry (`CHECK`), run the region selector when `FLAGS_region`
is set (returning 1 when it reports failure), then capture. -/
def mainGeometryPhase (env : Env) (target : WinTarget)
    (pre : List MainAction) : MainResult × List MainAction :=
  if !env.geometryOk then (.fatal, pre ++ [.getGeometry target])
  else
    let pre2 := pre ++ [MainAction.getGeometry target]
    if env.region_flag then
      match (selectRegion env.pointerGrabOk env.keyboardGrab env.events).1 with
      | none => (.blocked, pre2 ++ [.selectRegionCall])
      | some outcome =>
          if !outcome.ret then (.exit 1, pre2 ++ [.selectRegionCall])
          else
            let (r, t) := mainCapturePhase env target
            (r, pre2 ++ .selectRegionCall :: t)
    else
      let (r, t) := mainCapturePhase env target
      (r, pre2 ++ t)

/-- `main`: check the argument count, open the display (`CHECK`), resolve
the capture target (the root window when `FLAGS_window` is empty or
`FLAGS_region` is set, otherwise the window flag parsed as a hexadecimal
X ID, a failed parse being a fatal `CHECK`), then query geometry, select
a region if requested, and capture. -/
def mainRun (env : Env) : MainResult × List MainAction :=
  if !env.argcIsTwo then (.usage, [])
  else
    if !env.displayOpens then (.fatal, [.openDisplay])
    else
      if env.window_flag = "" || env.region_flag then
        mainGeometryPhase env .root [.openDisplay]
      else
        match parseHexWindow env.window_flag with
        | none => (.fatal, [.openDisplay, .parseWindowFlag env.window_flag])
        | some id =>
            mainGeometryPhase env (.handle id)
              [.openDisplay, .parseWindowFlag env.window_flag]

/-- A loop state in mid-drag, used to instantiate theorems about the
`Dragging` state on a concrete input. -/
def sampleDragState : SelState :=
  { done := false, dragging := true, aborted := false
    start_x := 1, start_y := 2, end_x := 3, end_y := 4
    left_win := ⟨0, 2, 2, 2⟩, right_win := ⟨3, 2, 2, 2⟩
    top_win := ⟨0, 0, 7, 2⟩, bottom_win := ⟨0, 4, 7, 2⟩ }

/-- A loop state with no drag in progress, used to instantiate theorems
about the `Idle` state on a concrete input. -/
def sampleIdleState : SelState :=
  { done := false, dragging := false, aborted := false
    start_x := 1, start_y := 2, end_x := 3, end_y := 4
    left_win := offscreenRect, right_win := offscreenRect
    top_win := offscreenRect, bottom_win := offscreenRect }

/-- An environment in which every step succeeds: correct usage, display
opens, no flags (root capture), a depth-24 image, and all later steps
succeed. Used to instantiate the `main`-level theorems. -/
def okEnv : Env :=
  { argcIsTwo := true, window_flag := "", region_flag := false
    displayOpens := true, geometryOk := true, pointerGrabOk := true
    keyboardGrab := fun _ => true, events := [], imageOk := true
    imageDepth := 24, surfaceOk := true, pngWriteOk := true
    filename := "shot.png" }

lemma toNat_max_sub_min (a b : Int) :
    (max a b - min a b).toNat = (a - b).natAbs := by
  rcases le_total a b with h | h
  · rw [max_eq_right h, min_eq_left h]; omega
  · rw [max_eq_left h, min_eq_right h]; omega

/-- C1: the claim states that a completed drag whose normalized rectangle
has zero width or zero height is reported as a failure. The code instead
executes `return (width > 0 && height > 0)` on its `unsigned int*`
out-parameters, a pointer comparison that is always true, so a drag from
`(10, 10)` straight down to `(10, 50)` (width 0) is reported as a success
with a zero-width rectangle. This theorem evaluates the embedded code at
that failing input. -/
theorem c1_zero_width_drag_reported_as_success :
    (selectRegion true (fun _ => true)
      [.buttonPress ⟨10, 10⟩, .buttonRelease ⟨10, 50⟩]).1 =
      some (.completed 10 10 0 40 true) := by decide

/-- C2: for every completed (non-aborted) drag, the rectangle stored by
`SelectRegion` has `x = min(start.x, end.x)`, `y = min(start.y, end.y)`,
`width = natAbs (start.x - end.x)` and `height = natAbs (start.y - end.y)`,
where `start` is the recorded button-press corner and `end` the recorded
button-release corner of the final loop state. -/
theorem c2_completed_drag_rectangle_normalized (kb : Nat → Bool)
    (events : List XEvent) (s : SelState) (n : Nat)
    (hkb : (grabKeyboardRetry kb).1 = some n)
    (hloop : (eventLoop loopEntryState events).1 = some s)
    (hab : s.aborted = false) :
    (selectRegion true kb events).1 =
      some (.completed (min s.start_x s.end_x) (min s.start_y s.end_y)
        (s.start_x - s.end_x).natAbs (s.start_y - s.end_y).natAbs true) := by
  rcases h1 : grabKeyboardRetry kb with ⟨r, t⟩
  rcases h2 : eventLoop loopEntryState events with ⟨lr, lt⟩
  rw [h1] at hkb
  rw [h2] at hloop
  simp only at hkb hloop
  subst hkb hloop
  simp [selectRegion, h1, runSelectionLoop, h2, outcomeOfFinalState, hab,
        outParamPointerIsPositive, toNat_max_sub_min]

/-- Witness for C2 at the spec's scenario C: a drag from `(50, 50)` to
`(10, 10)` yields the rectangle `(10, 10, 40, 40)`. -/
theorem c2_witness :
    (selectRegion true (fun _ => true)
      [.buttonPress ⟨50, 50⟩, .buttonRelease ⟨10, 10⟩]).1 =
      some (.completed 10 10 40 40 true) := by
  have h := c2_completed_drag_rectangle_normalized (fun _ => true)
    [.buttonPress ⟨50, 50⟩, .buttonRelease ⟨10, 10⟩]
    { done := true, dragging := true, aborted := false
      start_x := 50, start_y := 50, end_x := 10, end_y := 10
      left_win := offscreenRect, right_win := offscreenRect
      top_win := offscreenRect, bottom_win := offscreenRect } 0
    (by decide) (by decide) rfl
  rw [h]
  decide

/-- C10: a `ButtonPress` received while already dragging is not ignored:
it overwrites the start corner with the new pointer position and leaves
the machine dragging (with `done`, `aborted` and the end corner
untouched), restarting the drag in progress. -/
theorem c10_buttonPress_while_dragging_restarts_drag (s : SelState)
    (p : Point) (h : s.dragging = true) :
    (processEvent s (.buttonPress p)).1.dragging = true ∧
    (processEvent s (.buttonPress p)).1.start_x = p.x ∧
    (processEvent s (.buttonPress p)).1.start_y = p.y ∧
    (processEvent s (.buttonPress p)).1.done = s.done ∧
    (processEvent s (.buttonPress p)).1.aborted = s.aborted ∧
    (processEvent s (.buttonPress p)).1.end_x = s.end_x ∧
    (processEvent s (.buttonPress p)).1.end_y = s.end_y := by
  simp [processEvent]

/-- Witness for C10: a second button press at `(7, 8)` during the sample
drag restarts the drag there. -/
theorem c10_witness :
    (processEvent sampleDragState (.buttonPress ⟨7, 8⟩)).1.dragging = true ∧
    (processEvent sampleDragState (.buttonPress ⟨7, 8⟩)).1.start_x = 7 ∧
    (processEvent sampleDragState (.buttonPress ⟨7, 8⟩)).1.start_y = 8 ∧
    (processEvent sampleDragState (.buttonPress ⟨7, 8⟩)).1.done = false ∧
    (processEvent sampleDragState (.buttonPress ⟨7, 8⟩)).1.aborted = false ∧
    (processEvent sampleDragState (.buttonPress ⟨7, 8⟩)).1.end_x = 3 ∧
    (processEvent sampleDragState (.buttonPress ⟨7, 8⟩)).1.end_y = 4 := by
  have h := c10_buttonPress_while_dragging_restarts_drag sampleDragState
    ⟨7, 8⟩ (by decide)
  simpa [sampleDragState] using h

lemma eventLoop_terminal (s : SelState) (evs : List XEvent)
    (h : (s.done || s.aborted) = true) : eventLoop s evs = (some s, []) := by
  cases evs <;> simp [eventLoop, h]

/-- C5: an escape key press while dragging returns the machine to the
idle state (dragging cleared, neither done nor aborted), moves all four
border windows offscreen, and the loop keeps consuming events; an escape
key press while idle sets `aborted`, which terminates the loop at once
with the `Aborted` outcome, whose returned value is `false` and which
carries no rectangle. -/
theorem c5_escape_dragging_idles_escape_idle_aborts
    (s u : SelState) (rest : List XEvent)
    (hs : s.dragging = true) (hsd : s.done = false) (hsa : s.aborted = false)
    (hu : u.dragging = false) (hud : u.done = false) (hua : u.aborted = false) :
    (processEvent s (.keyPress true)).1.dragging = false ∧
    (processEvent s (.keyPress true)).1.done = false ∧
    (processEvent s (.keyPress true)).1.aborted = false ∧
    (processEvent s (.keyPress true)).1.left_win = offscreenRect ∧
    (processEvent s (.keyPress true)).1.right_win = offscreenRect ∧
    (processEvent s (.keyPress true)).1.top_win = offscreenRect ∧
    (processEvent s (.keyPress true)).1.bottom_win = offscreenRect ∧
    (eventLoop s (.keyPress true :: rest)).1 =
      (eventLoop (processEvent s (.keyPress true)).1 rest).1 ∧
    (processEvent u (.keyPress true)).1.aborted = true ∧
    eventLoop u (.keyPress true :: rest) =
      (some (processEvent u (.keyPress true)).1, []) ∧
    outcomeOfFinalState (processEvent u (.keyPress true)).1 = .aborted ∧
    (outcomeOfFinalState (processEvent u (.keyPress true)).1).ret = false := by
  refine ⟨?_, ?_, ?_, ?_, ?_, ?_, ?_, ?_, ?_, ?_, ?_, ?_⟩
  · simp [processEvent, hs, moveWindowsOffscreen]
  · simp [processEvent, hs, moveWindowsOffscreen, hsd]
  · simp [processEvent, hs, moveWindowsOffscreen, hsa]
  · simp [processEvent, hs, moveWindowsOffscreen]
  · simp [processEvent, hs, moveWindowsOffscreen]
  · simp [processEvent, hs, moveWindowsOffscreen]
  · simp [processEvent, hs, moveWindowsOffscreen]
  · simp [eventLoop, hsd, hsa]
  · simp [processEvent, hu]
  · have h1 : processEvent u (.keyPress true) = ({ u with aborted := true }, []) := by
      simp [processEvent, hu]
    have h2 : eventLoop { u with aborted := true } rest =
        (some { u with aborted := true }, []) :=
      eventLoop_terminal _ _ (by simp)
    rw [hud] at h2
    simp [eventLoop, hud, hua, h1, h2]
  · simp [outcomeOfFinalState, processEvent, hu]
  · simp [outcomeOfFinalState, processEvent, hu, SelectOutcome.ret]

/-- Witness for C5 at concrete states: the sample mid-drag state and the
sample idle state, with no further events. -/
theorem c5_witness :
    (processEvent sampleDragState (.keyPress true)).1.dragging = false ∧
    (processEvent sampleDragState (.keyPress true)).1.done = false ∧
    (processEvent sampleDragState (.keyPress true)).1.aborted = false ∧
    (processEvent sampleDragState (.keyPress true)).1.left_win = offscreenRect ∧
    (processEvent sampleDragState (.keyPress true)).1.right_win = offscreenRect ∧
    (processEvent sampleDragState (.keyPress true)).1.top_win = offscreenRect ∧
    (processEvent sampleDragState (.keyPress true)).1.bottom_win = offscreenRect ∧
    (eventLoop sampleDragState [.keyPress true]).1 =
      (eventLoop (processEvent sampleDragState (.keyPress true)).1 []).1 ∧
    (processEvent sampleIdleState (.keyPress true)).1.aborted = true ∧
    eventLoop sampleIdleState [.keyPress true] =
      (some (processEvent sampleIdleState (.keyPress true)).1, []) ∧
    outcomeOfFinalState (processEvent sampleIdleState (.keyPress true)).1 =
      .aborted ∧
    (outcomeOfFinalState
      (processEvent sampleIdleState (.keyPress true)).1).ret = false := by
  exact c5_escape_dragging_idles_escape_idle_aborts sampleDragState
    sampleIdleState [] (by decide) (by decide) (by decide)
    (by decide) (by decide) (by decide)

lemma grabRetryAux_succeeds (grab : Nat → Bool) (N : Nat)
    (hsucc : grab N = true) (hfail : ∀ i, i < N → grab i = false)
    (hN : N < kMaxKeyboardGrabAttempts) :
    ∀ fuel n, fuel + n = kMaxKeyboardGrabAttempts → n ≤ N →
    grabKeyboardRetryAux grab fuel n =
      (some N,
       (List.replicate (N - n)
         [XAction.grabKeyboardCall false,
          XAction.usleepCall (kKeyboardGrabDelayMs * 1000)]).flatten ++
       [XAction.grabKeyboardCall true]) := by
  intro fuel
  induction fuel with
  | zero =>
      intro n hsum hn
      exfalso
      simp [kMaxKeyboardGrabAttempts] at hsum hN
      omega
  | succ fuel ih =>
      intro n hsum hn
      by_cases hgn : grab n = true
      · have hnN : n = N := by
          rcases lt_or_eq_of_le hn with hlt | heq
          · exact absurd (hfail n hlt) (by simp [hgn])
          · exact heq
        subst hnN
        simp [grabKeyboardRetryAux, hgn]
      · have hlt : n < N := by
          rcases lt_or_eq_of_le hn with hlt | heq
          · exact hlt
          · exact absurd (heq ▸ hsucc) hgn
        have hnotmax : ¬ kMaxKeyboardGrabAttempts ≤ n + 1 := by
          simp only [kMaxKeyboardGrabAttempts] at *
          omega
        have hrec := ih (n + 1) (by omega) (by omega)
        have hrep : N - n = (N - (n + 1)) + 1 := by omega
        simp only [grabKeyboardRetryAux, hgn, if_neg hnotmax, if_false, hrec,
          Bool.false_eq_true, hrep, List.replicate_succ, List.flatten_cons]
        simp

lemma grabRetryAux_exhausts (grab : Nat → Bool)
    (hall : ∀ i, i < kMaxKeyboardGrabAttempts → grab i = false) :
    ∀ fuel n, fuel + n = kMaxKeyboardGrabAttempts → 1 ≤ fuel →
    grabKeyboardRetryAux grab fuel n =
      (none,
       (List.replicate (fuel - 1)
         [XAction.grabKeyboardCall false,
          XAction.usleepCall (kKeyboardGrabDelayMs * 1000)]).flatten ++
       [XAction.grabKeyboardCall false, XAction.ungrabPointer]) := by
  intro fuel
  induction fuel with
  | zero => intro n _ h1; omega
  | succ fuel ih =>
      intro n hsum h1
      have hgn : grab n = false := by
        refine hall n ?_
        simp only [kMaxKeyboardGrabAttempts] at *
        omega
      by_cases hmax : kMaxKeyboardGrabAttempts ≤ n + 1
      · have hfuel0 : fuel = 0 := by
          simp only [kMaxKeyboardGrabAttempts] at *
          omega
        subst hfuel0
        simp [grabKeyboardRetryAux, hgn, hmax]
      · have hfuel1 : 1 ≤ fuel := by
          simp only [kMaxKeyboardGrabAttempts] at *
          omega
        have hrec := ih (n + 1) (by omega) hfuel1
        have hrep : fuel + 1 - 1 = (fuel - 1) + 1 := by omega
        simp only [grabKeyboardRetryAux, hgn, if_neg hmax, if_false,
          Bool.false_eq_true, hrec, hrep, List.replicate_succ, List.flatten_cons]
        simp

/-- C3: keyboard-grab acquisition is retried with a fixed
`kKeyboardGrabDelayMs` millisecond delay for at most
`kMaxKeyboardGrabAttempts = 10` attempts. If the first `N < 10` attempts
fail and attempt `N + 1` succeeds, `SelectRegion` proceeds into the
selection loop (its outcome is the loop's outcome); if all 10 attempts
fail, the trace shows exactly 10 keyboard-grab attempts, the pointer grab
is released, and `SelectRegion` returns the keyboard-exhaustion failure. -/
theorem c3_keyboard_grab_bounded_retry (grab grab2 : Nat → Bool) (N : Nat)
    (events : List XEvent) (hN : N < kMaxKeyboardGrabAttempts)
    (hfail : ∀ i, i < N → grab i = false) (hsucc : grab N = true)
    (hall : ∀ i, i < kMaxKeyboardGrabAttempts → grab2 i = false) :
    (grabKeyboardRetry grab).1 = some N ∧
    (grabKeyboardRetry grab).2.count
      (.usleepCall (kKeyboardGrabDelayMs * 1000)) = N ∧
    (selectRegion true grab events).1 = (runSelectionLoop events).1 ∧
    (selectRegion true grab2 events).1 = some .keyboardGrabExhausted ∧
    (selectRegion true grab2 events).2.count (.grabKeyboardCall false) =
      kMaxKeyboardGrabAttempts ∧
    XAction.ungrabPointer ∈ (selectRegion true grab2 events).2 := by
  have hOK := grabRetryAux_succeeds grab N hsucc hfail hN
    kMaxKeyboardGrabAttempts 0 (by simp) (by omega)
  have hEX := grabRetryAux_exhausts grab2 hall
    kMaxKeyboardGrabAttempts 0 (by simp) (by simp [kMaxKeyboardGrabAttempts])
  have hsel2 : selectRegion true grab2 events =
      (some .keyboardGrabExhausted,
       XAction.grabPointerCall true ::
         ((List.replicate (kMaxKeyboardGrabAttempts - 1)
           [XAction.grabKeyboardCall false,
            XAction.usleepCall (kKeyboardGrabDelayMs * 1000)]).flatten ++
          [XAction.grabKeyboardCall false, XAction.ungrabPointer])) := by
    simp [selectRegion, grabKeyboardRetry, hEX]
  refine ⟨?_, ?_, ?_, ?_, ?_, ?_⟩
  · simp [grabKeyboardRetry, hOK]
  · simp only [grabKeyboardRetry, hOK]
    simp [List.count_append, List.count_flatten, List.count_cons,
      kKeyboardGrabDelayMs]
  · rcases hr : runSelectionLoop events with ⟨r, t⟩
    simp [selectRegion, grabKeyboardRetry, hOK, hr]
  · rw [hsel2]
  · rw [hsel2]
    decide
  · rw [hsel2]
    decide

/-- Witness for C3: a keyboard grab that fails three times and succeeds on
the fourth attempt lets the selector proceed; one that always fails makes
ten attempts, releases the pointer, and reports failure. -/
theorem c3_witness :
    (grabKeyboardRetry (fun i => decide (i = 3))).1 = some 3 ∧
    (grabKeyboardRetry (fun i => decide (i = 3))).2.count
      (.usleepCall (kKeyboardGrabDelayMs * 1000)) = 3 ∧
    (selectRegion true (fun i => decide (i = 3)) []).1 =
      (runSelectionLoop []).1 ∧
    (selectRegion true (fun _ => false) []).1 =
      some .keyboardGrabExhausted ∧
    (selectRegion true (fun _ => false) []).2.count
      (.grabKeyboardCall false) = kMaxKeyboardGrabAttempts ∧
    XAction.ungrabPointer ∈ (selectRegion true (fun _ => false) []).2 := by
  exact c3_keyboard_grab_bounded_retry (fun i => decide (i = 3))
    (fun _ => false) 3 [] (by decide) (by decide) (by decide) (by decide)

lemma grabRetryAux_counts (grab : Nat → Bool) :
    ∀ fuel n, fuel + n = kMaxKeyboardGrabAttempts → 1 ≤ fuel →
    ((grabKeyboardRetryAux grab fuel n).2.count XAction.ungrabPointer =
       if (grabKeyboardRetryAux grab fuel n).1.isSome then 0 else 1) ∧
    ((grabKeyboardRetryAux grab fuel n).2.count (XAction.grabKeyboardCall true) =
       if (grabKeyboardRetryAux grab fuel n).1.isSome then 1 else 0) ∧
    (grabKeyboardRetryAux grab fuel n).2.count XAction.ungrabKeyboard = 0 ∧
    (grabKeyboardRetryAux grab fuel n).2.count (XAction.grabPointerCall true) = 0 := by
  intro fuel
  induction fuel with
  | zero => intro n _ h1; omega
  | succ fuel ih =>
      intro n hsum h1
      by_cases hgn : grab n = true
      · simp [grabKeyboardRetryAux, hgn]
      · by_cases hmax : kMaxKeyboardGrabAttempts ≤ n + 1
        · simp [grabKeyboardRetryAux, hgn, hmax]
        · have hfuel1 : 1 ≤ fuel := by
            simp only [kMaxKeyboardGrabAttempts] at *
            omega
          have hrec := ih (n + 1) (by omega) hfuel1
          rcases haux : grabKeyboardRetryAux grab fuel (n + 1) with ⟨r, t⟩
          rw [haux] at hrec
          simp only [grabKeyboardRetryAux, hgn, Bool.false_eq_true, if_false,
            if_neg hmax, haux]
          simp only at hrec
          simp [List.count_cons, hrec.1, hrec.2.1, hrec.2.2.1, hrec.2.2.2]

lemma processEvent_trace_not_grab (s : SelState) (e : XEvent) :
    ∀ a ∈ (processEvent s e).2, grabRelated a = false := by
  intro a ha
  rcases e with p | p | w | esc | p | _
  · simp [processEvent] at ha
  · cases hd : s.dragging <;> simp [processEvent, hd] at ha
  · simp [processEvent] at ha
    subst ha
    rfl
  · cases hesc : esc <;> cases hd : s.dragging <;>
      simp [processEvent, hesc, hd, moveWindowsOffscreen] at ha
    rcases ha with h | h | h | h <;> subst h <;> rfl
  · cases hd : s.dragging <;>
      simp [processEvent, hd, configureWindows] at ha
    rcases ha with h | h | h | h <;> subst h <;> rfl
  · simp [processEvent] at ha

lemma eventLoop_trace_not_grab (x : XAction) (hx : grabRelated x = true) :
    ∀ (events : List XEvent) (s : SelState),
      (eventLoop s events).2.count x = 0 := by
  intro events
  induction events with
  | nil => intro s; simp [eventLoop]
  | cons e rest ih =>
      intro s
      by_cases hda : (s.done || s.aborted) = true
      · simp [eventLoop, hda]
      · rcases hpe : processEvent s e with ⟨s2, t⟩
        have hnot : x ∉ t := by
          intro hmem
          have hmem2 : x ∈ (processEvent s e).2 := by rw [hpe]; exact hmem
          have := processEvent_trace_not_grab s e x hmem2
          rw [this] at hx
          exact Bool.false_ne_true hx
        simp [eventLoop, hda, hpe, List.count_append, ih s2,
          List.count_eq_zero.mpr hnot]

/-- C4: on every exit path of `SelectRegion` (pointer-grab failure,
keyboard-grab exhaustion, abort, or a completed drag) the trace balances
each successful input-grab acquisition with exactly one matching release,
and each grab is acquired at most once, so no path leaks a held grab and
no release happens twice. -/
theorem c4_grab_released_exactly_once (pOk : Bool) (kb : Nat → Bool)
    (events : List XEvent) (outcome : SelectOutcome) (trace : List XAction)
    (h : selectRegion pOk kb events = (some outcome, trace)) :
    trace.count XAction.ungrabPointer =
      trace.count (XAction.grabPointerCall true) ∧
    trace.count XAction.ungrabKeyboard =
      trace.count (XAction.grabKeyboardCall true) ∧
    trace.count (XAction.grabPointerCall true) ≤ 1 ∧
    trace.count (XAction.grabKeyboardCall true) ≤ 1 := by
  cases pOk with
  | false =>
      simp [selectRegion] at h
      rw [← h.2]
      decide
  | true =>
      rcases hkb : grabKeyboardRetry kb with ⟨r, kbt⟩
      have hc := grabRetryAux_counts kb kMaxKeyboardGrabAttempts 0 (by simp)
        (by simp [kMaxKeyboardGrabAttempts])
      rw [show grabKeyboardRetryAux kb kMaxKeyboardGrabAttempts 0 = (r, kbt)
        from hkb] at hc
      simp only at hc
      cases r with
      | none =>
          simp [selectRegion, hkb] at h
          rw [← h.2]
          simp only [Option.isSome_none, Bool.false_eq_true, if_false] at hc
          simp [List.count_cons, hc.1, hc.2.1, hc.2.2.1, hc.2.2.2]
      | some n =>
          rcases hel : eventLoop loopEntryState events with ⟨elr, elt⟩
          cases elr with
          | none =>
              simp [selectRegion, hkb, runSelectionLoop, hel] at h
          | some s =>
              simp [selectRegion, hkb, runSelectionLoop, hel] at h
              rw [← h.2]
              simp only [Option.isSome_some, if_true] at hc
              have he1 := eventLoop_trace_not_grab XAction.ungrabPointer rfl events loopEntryState
              have he2 := eventLoop_trace_not_grab (XAction.grabKeyboardCall true) rfl events loopEntryState
              have he3 := eventLoop_trace_not_grab XAction.ungrabKeyboard rfl events loopEntryState
              have he4 := eventLoop_trace_not_grab (XAction.grabPointerCall true) rfl events loopEntryState
              rw [hel] at he1 he2 he3 he4
              simp only at he1 he2 he3 he4
              simp [List.count_cons, List.count_append, hc.1, hc.2.1,
                hc.2.2.1, hc.2.2.2, he1, he2, he3, he4,
                selectionSetupTrace, selectionTeardownTrace,
                moveWindowsOffscreen, List.count_nil]

/-- Witness for C4 at a concrete completed drag: one pointer grab, one
keyboard grab, one release of each. -/
theorem c4_witness :
    (selectRegion true (fun _ => true)
        [.buttonPress ⟨0, 0⟩, .buttonRelease ⟨5, 5⟩]).2.count
        XAction.ungrabPointer =
      (selectRegion true (fun _ => true)
        [.buttonPress ⟨0, 0⟩, .buttonRelease ⟨5, 5⟩]).2.count
        (XAction.grabPointerCall true) ∧
    (selectRegion true (fun _ => true)
        [.buttonPress ⟨0, 0⟩, .buttonRelease ⟨5, 5⟩]).2.count
        XAction.ungrabKeyboard =
      (selectRegion true (fun _ => true)
        [.buttonPress ⟨0, 0⟩, .buttonRelease ⟨5, 5⟩]).2.count
        (XAction.grabKeyboardCall true) ∧
    (selectRegion true (fun _ => true)
        [.buttonPress ⟨0, 0⟩, .buttonRelease ⟨5, 5⟩]).2.count
        (XAction.grabPointerCall true) ≤ 1 ∧
    (selectRegion true (fun _ => true)
        [.buttonPress ⟨0, 0⟩, .buttonRelease ⟨5, 5⟩]).2.count
        (XAction.grabKeyboardCall true) ≤ 1 := by
  exact c4_grab_released_exactly_once true (fun _ => true)
    [.buttonPress ⟨0, 0⟩, .buttonRelease ⟨5, 5⟩]
    (.completed 0 0 5 5 true)
    (selectRegion true (fun _ => true)
      [.buttonPress ⟨0, 0⟩, .buttonRelease ⟨5, 5⟩]).2
    (by decide)

/-- C6: when the image read succeeds, a reported depth of 24 makes the
encode path create the Cairo surface with the no-alpha `RGB24` format, a
depth of 32 makes it use the alpha-carrying `ARGB32` format, and any
other depth makes the run abort fatally with no surface created, no PNG
written, and no output file. -/
theorem c6_depth_selects_encode_format (env : Env) (target : WinTarget)
    (himg : env.imageOk = true) :
    (env.imageDepth = 24 →
       MainAction.createCairoSurface .rgb24 ∈ (mainCapturePhase env target).2 ∧
       MainAction.createCairoSurface .argb32 ∉ (mainCapturePhase env target).2) ∧
    (env.imageDepth = 32 →
       MainAction.createCairoSurface .argb32 ∈ (mainCapturePhase env target).2 ∧
       MainAction.createCairoSurface .rgb24 ∉ (mainCapturePhase env target).2) ∧
    (env.imageDepth ≠ 24 → env.imageDepth ≠ 32 →
       (mainCapturePhase env target).1 = .fatal ∧
       (∀ fmt, MainAction.createCairoSurface fmt ∉ (mainCapturePhase env target).2) ∧
       (∀ fmt f, MainAction.writePng fmt f ∉ (mainCapturePhase env target).2) ∧
       (mainCapturePhase env target).1.wroteFile = false) := by
  refine ⟨?_, ?_, ?_⟩
  · intro h24
    by_cases hs : env.surfaceOk <;> by_cases hw : env.pngWriteOk <;>
      simp [mainCapturePhase, himg, h24, hs, hw]
  · intro h32
    by_cases hs : env.surfaceOk <;> by_cases hw : env.pngWriteOk <;>
      simp [mainCapturePhase, himg, h32, hs, hw]
  · intro h24 h32
    simp [mainCapturePhase, himg, h24, h32, MainResult.wroteFile]

/-- Witness for C6 in the all-success environment, whose image reports
depth 24: the surface is created with the no-alpha format. -/
theorem c6_witness :
    MainAction.createCairoSurface .rgb24 ∈ (mainCapturePhase okEnv .root).2 ∧
    MainAction.createCairoSurface .argb32 ∉ (mainCapturePhase okEnv .root).2 := by
  exact (c6_depth_selects_encode_format okEnv .root rfl).1 rfl

lemma mainCapturePhase_exit0 (env : Env) (target : WinTarget)
    (t : List MainAction) (h : mainCapturePhase env target = (.exit 0, t)) :
    ∃ fmt, t = captureTail target fmt env.filename := by
  simp only [mainCapturePhase] at h
  split_ifs at h <;> simp [Prod.ext_iff] at h
  · exact ⟨CairoFormat.rgb24, h.symm⟩
  · exact ⟨CairoFormat.argb32, h.symm⟩

lemma mainGeometryPhase_exit0 (env : Env) (target : WinTarget)
    (pre trace : List MainAction)
    (h : mainGeometryPhase env target pre = (.exit 0, trace)) :
    ∃ mid fmt, trace = pre ++ mid ++ captureTail target fmt env.filename ∧
      ∀ a ∈ mid, a = MainAction.getGeometry target ∨
        a = MainAction.selectRegionCall := by
  simp only [mainGeometryPhase] at h
  split_ifs at h with hgeo hreg
  · simp [Prod.ext_iff] at h
  · rcases hsel : (selectRegion env.pointerGrabOk env.keyboardGrab env.events).1
      with _ | outcome <;> rw [hsel] at h
    · simp [Prod.ext_iff] at h
    · by_cases hret : outcome.ret = true
      · rcases hcap : mainCapturePhase env target with ⟨cr, ct⟩
        rw [hcap] at h
        simp only [hret, Bool.not_true, Bool.false_eq_true, if_false] at h
        simp only [Prod.ext_iff] at h
        obtain ⟨hcr, hct⟩ := h
        obtain ⟨fmt, hfmt⟩ := mainCapturePhase_exit0 env target ct
          (by rw [hcap, ← hcr])
        refine ⟨[MainAction.getGeometry target, MainAction.selectRegionCall],
          fmt, ?_, ?_⟩
        · rw [← hct, hfmt]
          simp
        · intro a ha
          simp at ha
          tauto
      · simp only [Bool.not_eq_true] at hret
        simp [hret, Prod.ext_iff] at h
  · rcases hcap : mainCapturePhase env target with ⟨cr, ct⟩
    rw [hcap] at h
    simp only [Prod.ext_iff] at h
    obtain ⟨hcr, hct⟩ := h
    obtain ⟨fmt, hfmt⟩ := mainCapturePhase_exit0 env target ct
      (by rw [hcap, ← hcr])
    refine ⟨[MainAction.getGeometry target], fmt, ?_, ?_⟩
    · simp [← hct, hfmt]
    · intro a ha
      simp at ha
      tauto

lemma benign_prefix_no_capture_actions (pre : List MainAction)
    (hpre : ∀ a ∈ pre, a = MainAction.openDisplay ∨
      (∃ s, a = MainAction.parseWindowFlag s) ∨
      (∃ t, a = MainAction.getGeometry t) ∨
      a = MainAction.selectRegionCall) :
    (∀ t, MainAction.getImage t ∉ pre) ∧
    MainAction.createFeedbackWindow ∉ pre ∧
    MainAction.mapFeedbackWindow ∉ pre ∧
    MainAction.destroyFeedbackWindow ∉ pre ∧
    (∀ f, MainAction.createCairoSurface f ∉ pre) ∧
    (∀ f g, MainAction.writePng f g ∉ pre) := by
  refine ⟨?_, ?_, ?_, ?_, ?_, ?_⟩
  · intro t hmem
    rcases hpre _ hmem with h | ⟨s, h⟩ | ⟨u, h⟩ | h <;> simp at h
  · intro hmem
    rcases hpre _ hmem with h | ⟨s, h⟩ | ⟨u, h⟩ | h <;> simp at h
  · intro hmem
    rcases hpre _ hmem with h | ⟨s, h⟩ | ⟨u, h⟩ | h <;> simp at h
  · intro hmem
    rcases hpre _ hmem with h | ⟨s, h⟩ | ⟨u, h⟩ | h <;> simp at h
  · intro f hmem
    rcases hpre _ hmem with h | ⟨s, h⟩ | ⟨u, h⟩ | h <;> simp at h
  · intro f g hmem
    rcases hpre _ hmem with h | ⟨s, h⟩ | ⟨u, h⟩ | h <;> simp at h

/-- C8: in every run that returns success, the trace splits into a prefix
that contains no pixel read, no feedback-window action, and no encode
action, followed by (in this order) exactly the pixel read, the creation
and mapping of the feedback window, the fixed
`kVisualFeedbackWindowDisplayTimeMs` millisecond sleep, the destruction
of the feedback window, and only then the Cairo surface creation and the
PNG write. -/
theorem c8_feedback_window_between_capture_and_encode (env : Env)
    (trace : List MainAction) (h : mainRun env = (.exit 0, trace)) :
    ∃ pre target fmt,
      trace = pre ++ captureTail target fmt env.filename ∧
      (∀ t, MainAction.getImage t ∉ pre) ∧
      MainAction.createFeedbackWindow ∉ pre ∧
      MainAction.mapFeedbackWindow ∉ pre ∧
      MainAction.destroyFeedbackWindow ∉ pre ∧
      (∀ f, MainAction.createCairoSurface f ∉ pre) ∧
      (∀ f g, MainAction.writePng f g ∉ pre) := by
  simp only [mainRun] at h
  split_ifs at h with hargc hdisp hwin
  · simp [Prod.ext_iff] at h
  · simp [Prod.ext_iff] at h
  · obtain ⟨mid, fmt, htr, hmid⟩ :=
      mainGeometryPhase_exit0 env .root [MainAction.openDisplay] trace h
    have hpre : ∀ a ∈ MainAction.openDisplay :: mid,
        a = MainAction.openDisplay ∨
        (∃ s, a = MainAction.parseWindowFlag s) ∨
        (∃ t, a = MainAction.getGeometry t) ∨
        a = MainAction.selectRegionCall := by
      intro a ha
      rcases List.mem_cons.mp ha with h1 | h1
      · exact Or.inl h1
      · rcases hmid a h1 with h2 | h2
        · exact Or.inr (Or.inr (Or.inl ⟨_, h2⟩))
        · exact Or.inr (Or.inr (Or.inr h2))
    obtain ⟨n1, n2, n3, n4, n5, n6⟩ :=
      benign_prefix_no_capture_actions _ hpre
    exact ⟨MainAction.openDisplay :: mid, .root, fmt,
      by simpa using htr, n1, n2, n3, n4, n5, n6⟩
  · rcases hp : parseHexWindow env.window_flag with _ | id <;> rw [hp] at h
    · simp [Prod.ext_iff] at h
    · obtain ⟨mid, fmt, htr, hmid⟩ := mainGeometryPhase_exit0 env (.handle id)
        [MainAction.openDisplay, MainAction.parseWindowFlag env.window_flag]
        trace h
      have hpre : ∀ a ∈ MainAction.openDisplay ::
          MainAction.parseWindowFlag env.window_flag :: mid,
          a = MainAction.openDisplay ∨
          (∃ s, a = MainAction.parseWindowFlag s) ∨
          (∃ t, a = MainAction.getGeometry t) ∨
          a = MainAction.selectRegionCall := by
        intro a ha
        rcases List.mem_cons.mp ha with h1 | h1
        · exact Or.inl h1
        · rcases List.mem_cons.mp h1 with h2 | h2
          · exact Or.inr (Or.inl ⟨_, h2⟩)
          · rcases hmid a h2 with h3 | h3
            · exact Or.inr (Or.inr (Or.inl ⟨_, h3⟩))
            · exact Or.inr (Or.inr (Or.inr h3))
      obtain ⟨n1, n2, n3, n4, n5, n6⟩ :=
        benign_prefix_no_capture_actions _ hpre
      exact ⟨MainAction.openDisplay ::
        MainAction.parseWindowFlag env.window_flag :: mid, .handle id, fmt,
        by simpa using htr, n1, n2, n3, n4, n5, n6⟩

/-- Witness for C8 in the all-success environment. -/
theorem c8_witness :
    ∃ pre target fmt,
      (mainRun okEnv).2 = pre ++ captureTail target fmt okEnv.filename ∧
      (∀ t, MainAction.getImage t ∉ pre) ∧
      MainAction.createFeedbackWindow ∉ pre ∧
      MainAction.mapFeedbackWindow ∉ pre ∧
      MainAction.destroyFeedbackWindow ∉ pre ∧
      (∀ f, MainAction.createCairoSurface f ∉ pre) ∧
      (∀ f g, MainAction.writePng f g ∉ pre) := by
  exact c8_feedback_window_between_capture_and_encode okEnv
    (mainRun okEnv).2 (by decide)

lemma mainCapturePhase_mem (env : Env) (target : WinTarget) (a : MainAction)
    (ha : a ∈ (mainCapturePhase env target).2) :
    a = MainAction.getImage target ∨ a = MainAction.createFeedbackWindow ∨
    a = MainAction.mapFeedbackWindow ∨
    a = MainAction.usleepCall (kVisualFeedbackWindowDisplayTimeMs * 1000) ∨
    a = MainAction.destroyFeedbackWindow ∨
    (∃ fmt, a = MainAction.createCairoSurface fmt) ∨
    (∃ fmt, a = MainAction.writePng fmt env.filename) := by
  simp only [mainCapturePhase] at ha
  split_ifs at ha <;> simp at ha <;> aesop

lemma mainGeometryPhase_mem (env : Env) (target : WinTarget)
    (pre : List MainAction) (a : MainAction)
    (ha : a ∈ (mainGeometryPhase env target pre).2) :
    a ∈ pre ∨ a = MainAction.getGeometry target ∨
    a = MainAction.selectRegionCall ∨
    a ∈ (mainCapturePhase env target).2 := by
  simp only [mainGeometryPhase] at ha
  split_ifs at ha with hgeo hreg
  · simp at ha
    tauto
  · rcases hsel : (selectRegion env.pointerGrabOk env.keyboardGrab env.events).1
      with _ | outcome <;> rw [hsel] at ha
    · simp at ha
      tauto
    · by_cases hret : outcome.ret = true
      · rcases hcap : mainCapturePhase env target with ⟨cr, ct⟩
        rw [hcap] at ha
        simp only [hret, Bool.not_true, Bool.false_eq_true, if_false] at ha
        simp at ha
        rcases ha with h | h | h | h
        · exact Or.inl h
        · exact Or.inr (Or.inl h)
        · exact Or.inr (Or.inr (Or.inl h))
        · exact Or.inr (Or.inr (Or.inr h))
      · simp only [Bool.not_eq_true] at hret
        simp [hret] at ha
        tauto
  · rcases hcap : mainCapturePhase env target with ⟨cr, ct⟩
    rw [hcap] at ha
    simp at ha
    rcases ha with h | h | h
    · exact Or.inl h
    · exact Or.inr (Or.inl h)
    · exact Or.inr (Or.inr (Or.inr h))

lemma mainGeometryPhase_trace_head (env : Env) (target : WinTarget)
    (pre : List MainAction) :
    ∃ rest, (mainGeometryPhase env target pre).2 =
      pre ++ MainAction.getGeometry target :: rest := by
  simp only [mainGeometryPhase]
  split_ifs with hgeo hreg
  · exact ⟨[], rfl⟩
  · rcases hsel : (selectRegion env.pointerGrabOk env.keyboardGrab env.events).1
      with _ | outcome
    · exact ⟨[MainAction.selectRegionCall], by simp⟩
    · by_cases hret : outcome.ret = true
      · rcases hcap : mainCapturePhase env target with ⟨cr, ct⟩
        exact ⟨MainAction.selectRegionCall :: ct, by
          simp [hret, hcap]⟩
      · simp only [Bool.not_eq_true] at hret
        exact ⟨[MainAction.selectRegionCall], by simp [hret]⟩
  · rcases hcap : mainCapturePhase env target with ⟨cr, ct⟩
    exact ⟨ct, by simp [hcap]⟩

/-- C9: when the region flag is set, the window flag is never parsed (no
parse action appears in the trace, and the run's behavior is unchanged by
any window-flag value, parsable or not), and the root window is the
capture surface: the geometry query right after opening the display and
any pixel read target the root window, never a parsed handle. -/
theorem c9_region_flag_skips_window_parse (env : Env)
    (hargc : env.argcIsTwo = true) (hdisp : env.displayOpens = true)
    (hregion : env.region_flag = true) :
    (∀ s, MainAction.parseWindowFlag s ∉ (mainRun env).2) ∧
    (∀ id, MainAction.getGeometry (.handle id) ∉ (mainRun env).2) ∧
    (∀ id, MainAction.getImage (.handle id) ∉ (mainRun env).2) ∧
    (∃ rest, (mainRun env).2 =
      MainAction.openDisplay :: MainAction.getGeometry .root :: rest) ∧
    (∀ s, mainRun { env with window_flag := s } = mainRun env) := by
  have hmain : mainRun env =
      mainGeometryPhase env .root [MainAction.openDisplay] := by
    simp [mainRun, hargc, hdisp, hregion]
  refine ⟨?_, ?_, ?_, ?_, ?_⟩
  · intro s hmem
    rw [hmain] at hmem
    rcases mainGeometryPhase_mem env .root _ _ hmem with h | h | h | h
    · simp at h
    · simp at h
    · simp at h
    · rcases mainCapturePhase_mem env .root _ h with
        h2 | h2 | h2 | h2 | h2 | ⟨f, h2⟩ | ⟨f, h2⟩ <;> simp at h2
  · intro id hmem
    rw [hmain] at hmem
    rcases mainGeometryPhase_mem env .root _ _ hmem with h | h | h | h
    · simp at h
    · simp at h
    · simp at h
    · rcases mainCapturePhase_mem env .root _ h with
        h2 | h2 | h2 | h2 | h2 | ⟨f, h2⟩ | ⟨f, h2⟩ <;> simp at h2
  · intro id hmem
    rw [hmain] at hmem
    rcases mainGeometryPhase_mem env .root _ _ hmem with h | h | h | h
    · simp at h
    · simp at h
    · simp at h
    · rcases mainCapturePhase_mem env .root _ h with
        h2 | h2 | h2 | h2 | h2 | ⟨f, h2⟩ | ⟨f, h2⟩ <;> simp at h2
  · rw [hmain]
    obtain ⟨rest, hr⟩ := mainGeometryPhase_trace_head env .root
      [MainAction.openDisplay]
    exact ⟨rest, by simpa using hr⟩
  · intro s
    have h1 : mainRun { env with window_flag := s } =
        mainGeometryPhase { env with window_flag := s } .root
          [MainAction.openDisplay] := by
      simp [mainRun, hargc, hdisp, hregion]
    have h2 : mainGeometryPhase { env with window_flag := s } .root
        [MainAction.openDisplay] =
        mainGeometryPhase env .root [MainAction.openDisplay] := rfl
    rw [h1, h2, hmain]

/-- Witness for C9: the region flag combined with the unparsable window
flag value `"not-hex"` does not cause a parse failure; the root window is
queried and captured. -/
theorem c9_witness :
    (∀ s, MainAction.parseWindowFlag s ∉
      (mainRun { okEnv with
        region_flag := true
        window_flag := "not-hex"
        events := [.buttonPress ⟨0, 0⟩, .buttonRelease ⟨5, 5⟩] }).2) ∧
    (∀ id, MainAction.getGeometry (.handle id) ∉
      (mainRun { okEnv with
        region_flag := true
        window_flag := "not-hex"
        events := [.buttonPress ⟨0, 0⟩, .buttonRelease ⟨5, 5⟩] }).2) ∧
    (∀ id, MainAction.getImage (.handle id) ∉
      (mainRun { okEnv with
        region_flag := true
        window_flag := "not-hex"
        events := [.buttonPress ⟨0, 0⟩, .buttonRelease ⟨5, 5⟩] }).2) ∧
    (∃ rest, (mainRun { okEnv with
        region_flag := true
        window_flag := "not-hex"
        events := [.buttonPress ⟨0, 0⟩, .buttonRelease ⟨5, 5⟩] }).2 =
      MainAction.openDisplay :: MainAction.getGeometry .root :: rest) ∧
    (∀ s, mainRun { okEnv with
        region_flag := true
        window_flag := s
        events := [.buttonPress ⟨0, 0⟩, .buttonRelease ⟨5, 5⟩] } =
      mainRun { okEnv with
        region_flag := true
        window_flag := "not-hex"
        events := [.buttonPress ⟨0, 0⟩, .buttonRelease ⟨5, 5⟩] }) := by
  exact c9_region_flag_skips_window_parse
    { okEnv with
        region_flag := true
        window_flag := "not-hex"
        events := [.buttonPress ⟨0, 0⟩, .buttonRelease ⟨5, 5⟩] } rfl rfl rfl

end Screenshot
